import Mathlib

/-!
Shallow embedding of `src/index.js` (class `ThumbnailGenerator`) from the
video-thumbnail-generator repository, together with theorems settling the
frozen claims about it.

The JavaScript program is a thin wrapper around an external media engine
(fluent-ffmpeg).  We embed:

* JavaScript values (`JVal`): the option records the code manipulates hold
  numbers, strings, booleans, arrays, `undefined`/`null` and `Error` objects.
* JavaScript objects as association lists (`Obj`) with lodash's `_.assignIn`
  semantics: `assignIn(target, source)` writes every own key of `source`
  into `target` in order, mutating and returning `target`.
* The external engine as an explicit outcome parameter: every public
  operation builds the exact option lists the source builds, registers the
  `filenames` / `end` / `error` notifications, and the run's behaviour is
  a value of `ScreenshotRun` / `EngineOutcome` supplied to the embedding.
  `Date.now()` is passed in as an explicit `now : Nat` parameter.
-/

/-- JavaScript runtime values as manipulated by the source file.  Numbers
are modelled as rationals (every numeric literal in the source is a finite
decimal); `vErr` models an `Error` object carrying its message.  The only
arrays the source ever stores in an option record are arrays of strings
(the `timestamps` option), so `vArr` carries a list of strings. -/
inductive JVal where
  | vUndefined
  | vNull
  | vBool (b : Bool)
  | vNum (q : ℚ)
  | vStr (s : String)
  | vArr (elems : List String)
  | vErr (msg : String)
  deriving DecidableEq, Repr

/-- JavaScript truthiness for the values of `JVal` (`NaN` is not modelled:
no claim involves it). -/
def truthy : JVal → Bool
  | .vUndefined => false
  | .vNull => false
  | .vBool b => b
  | .vNum q => q != 0
  | .vStr s => s != ""
  | .vArr _ => true
  | .vErr _ => true

/-- Smallest exponent `k ≤ 20` with `d ∣ 10 ^ k`, used to render a rational
with a decimal-power denominator the way JavaScript prints such a number. -/
def pow10Exp (d : Nat) : Option Nat :=
  (List.range 21).find? (fun k => (10 ^ k) % d == 0)

/-- JavaScript number-to-string conversion, adequate for the numbers this
source file ever stringifies: integers print as integers and finite
decimals such as `0.75` print with a decimal point. -/
def jsNumToString (q : ℚ) : String :=
  if q.den = 1 then toString q.num
  else
    match pow10Exp q.den with
    | some k =>
      let scaled : Int := q.num * ((10 ^ k) / q.den : ℕ)
      let sign := if q.num < 0 then "-" else ""
      let digits := toString scaled.natAbs
      let digits :=
        if digits.length ≤ k then
          String.mk (List.replicate (k + 1 - digits.length) '0') ++ digits
        else digits
      sign ++ digits.dropRight k ++ "." ++ digits.takeRight k
    | none => toString q.num ++ "/" ++ toString q.den

/-- JavaScript string conversion (as performed by a template literal);
arrays join their elements with commas as `Array.prototype.toString` does. -/
def jsToString : JVal → String
  | .vUndefined => "undefined"
  | .vNull => "null"
  | .vBool true => "true"
  | .vBool false => "false"
  | .vNum q => jsNumToString q
  | .vStr s => s
  | .vArr elems => String.intercalate "," elems
  | .vErr m => "Error: " ++ m

/-- A JavaScript object: an association list of string keys to values, in
property-insertion order.  Objects coming from JavaScript never hold the
same key twice (`keysNodup` states that invariant where a proof needs it). -/
abbrev Obj := List (String × JVal)

/-- Property read: first binding of the key, `undefined` when absent. -/
def getProp (o : Obj) (k : String) : JVal :=
  match o with
  | [] => .vUndefined
  | (j, v) :: rest => if j = k then v else getProp rest k

/-- Property write: overwrite the binding in place when the key is present,
append it otherwise — exactly a JavaScript property assignment. -/
def setKey (o : Obj) (k : String) (v : JVal) : Obj :=
  match o with
  | [] => [(k, v)]
  | (j, w) :: rest => if j = k then (j, v) :: rest else (j, w) :: setKey rest k v

/-- Whether the object owns the key. -/
def hasKey (o : Obj) (k : String) : Bool :=
  o.any (fun kv => kv.1 == k)

/-- The invariant every object built from JavaScript satisfies: no key
occurs twice. -/
def keysNodup (o : Obj) : Prop :=
  (o.map Prod.fst).Nodup

instance (o : Obj) : Decidable (keysNodup o) := by
  unfold keysNodup; infer_instance

/-- lodash `_.assignIn(target, source)`: assign each binding of `source`
into `target`, in order.  In JavaScript this mutates `target` in place and
returns it; the embedding returns the mutated object. -/
def assignIn (target source : Obj) : Obj :=
  source.foldl (fun acc kv => setKey acc kv.1 kv.2) target

/-- Options accepted by the `ThumbnailGenerator` constructor; a field the
caller omits is `vUndefined`. -/
structure ConstructorOpts where
  sourcePath : JVal
  thumbnailPath : JVal
  percent : JVal
  logger : JVal
  tmpDir : JVal
  deriving DecidableEq, Repr

/-- The state a `ThumbnailGenerator` instance carries after construction. -/
structure Generator where
  sourcePath : JVal
  thumbnailPath : JVal
  percent : String
  logger : JVal
  fileNameFormat : String
  tmpDir : JVal
  deriving DecidableEq, Repr

/-- The constructor (`src/index.js` lines 19-30).  `this.percent` is
`` `${opts.percent}%` || '90%' ``: the template literal stringifies
`opts.percent`, and the `||` fallback fires only when that string is falsy
(empty).  `this.tmpDir` is `opts.tmpDir || '/tmp'` and `this.logger` is
`opts.logger || null`. -/
def mkGenerator (opts : ConstructorOpts) : Generator :=
  { sourcePath := opts.sourcePath
    thumbnailPath := opts.thumbnailPath
    percent :=
      let s := jsToString opts.percent ++ "%"
      if s = "" then "90%" else s
    logger := if truthy opts.logger then opts.logger else .vNull
    fileNameFormat := "%b-thumbnail-%r-%000i"
    tmpDir := if truthy opts.tmpDir then opts.tmpDir else .vStr "/tmp" }

deriving instance DecidableEq for Except

/-- Terminal notification of one external-engine run: either the `end`
event or the `error` event fires, never both. -/
inductive EngineOutcome where
  | success
  | failure (err : String)
  deriving DecidableEq, Repr

/-- Observable behaviour of one `screenshots` run of the engine: the
payloads of the streaming `filenames` notifications fired before the
terminal event, in order, and the terminal outcome. -/
structure ScreenshotRun where
  filenamesEvents : List (List String)
  outcome : EngineOutcome
  deriving DecidableEq, Repr

/-- Observable effect of one call of `generate` (`src/index.js` lines
112-140): the fully resolved settings handed to the single `screenshots`
invocation, and the settled value of the returned promise. -/
structure GenerateCall where
  settings : Obj
  result : Except String (List String)
  deriving DecidableEq, Repr

/-- The default-settings template `generate` builds afresh on every call
(an object literal evaluated inside the function body): `this.size` is
never assigned by the constructor, so it is `undefined`. -/
def defaultGenerateSettings (g : Generator) : Obj :=
  [("folder", g.thumbnailPath),
   ("count", .vNum 10),
   ("size", .vUndefined),
   ("filename", .vStr g.fileNameFormat),
   ("logger", g.logger)]

/-- `generate(opts)`: one ffmpeg instance is created, the settings are
`_.assignIn(defaultSettings, opts)`, and the promise resolves on `end`
with the latest `filenames` payload (`filenameArray` starts as `[]` and is
replaced by each `filenames` event), or rejects with the `error` payload. -/
def generate (g : Generator) (opts : Obj) (run : ScreenshotRun) : GenerateCall :=
  { settings := assignIn (defaultGenerateSettings g) opts
    result :=
      match run.outcome with
      | .failure e => .error e
      | .success => .ok ((run.filenamesEvents.getLast?).getD []) }

/-- Observable effect of one call of `generateOneByPercent`
(`src/index.js` lines 61-71): the settings of each `screenshots`
invocation started (none when the percent check rejects), the caller's
`opts` object after the call (`_.assignIn` mutates it in place), and the
settled value of the returned promise. -/
structure OneByPercentCall where
  invocations : List Obj
  optsAfter : Obj
  result : Except String JVal
  deriving DecidableEq, Repr

/-- `generateOneByPercent(percent, opts)`: rejects with the range error
when `percent < 0 || percent > 100`, otherwise writes `count: 1` and a
one-element `timestamps` array holding the template string of the percent
followed by a percent sign into `opts` via `_.assignIn`, delegates to
`generate`, and pops the last element of the resulting array
(`Array.prototype.pop` yields `undefined` on an empty array). -/
def generateOneByPercent (g : Generator) (percent : ℚ) (opts : Obj)
    (run : ScreenshotRun) : OneByPercentCall :=
  if percent < 0 ∨ percent > 100 then
    { invocations := []
      optsAfter := opts
      result := .error "Percent must be a value from 0-100" }
  else
    let opts2 := assignIn opts
      [("count", .vNum 1), ("timestamps", .vArr [jsNumToString percent ++ "%"])]
    let gen := generate g opts2 run
    { invocations := [gen.settings]
      optsAfter := opts2
      result := gen.result.map (fun fns => ((fns.getLast?).map JVal.vStr).getD .vUndefined) }

/-- Observable effect of one call of `generatePalette` (`src/index.js`
lines 181-216): the input options, output options and output path handed
to the single engine run, and the settled value of the returned promise. -/
structure PaletteCall where
  inputOptions : List String
  outputOptions : List String
  output : String
  result : Except String String
  deriving DecidableEq, Repr

/-- The default-options template `generatePalette` builds afresh on every
call. -/
def paletteDefaultOpts : Obj :=
  [("videoFilters", .vStr "fps=10,scale=320:-1:flags=lanczos,palettegen")]

/-- `generatePalette(opts)`: `conf = _.assignIn(defaultOpts, opts)`; input
options start as `['-y']` and gain `-ss`/`-t` entries when `conf.offset` /
`conf.duration` are truthy; output options are exactly the `-vf` filter
chain; the output path is `` `${this.tmpDir}/palette-${Date.now()}.png` ``
(`Date.now()` passed in as `now`); the promise resolves with the output
path on `end` and rejects with the error on `error`. -/
def generatePalette (g : Generator) (opts : Obj) (now : Nat)
    (outcome : EngineOutcome) : PaletteCall :=
  let conf := assignIn paletteDefaultOpts opts
  let inputOptions :=
    ["-y"]
    ++ (if truthy (getProp conf "offset") then
          ["-ss " ++ jsToString (getProp conf "offset")] else [])
    ++ (if truthy (getProp conf "duration") then
          ["-t " ++ jsToString (getProp conf "duration")] else [])
  let output := jsToString g.tmpDir ++ "/palette-" ++ toString now ++ ".png"
  { inputOptions
    outputOptions := ["-vf " ++ jsToString (getProp conf "videoFilters")]
    output
    result :=
      match outcome with
      | .success => .ok output
      | .failure e => .error e }

/-- The option lists and output path of the second (gif-building) engine
invocation of `generateGif`. -/
structure GifInvocation where
  inputOptions : List String
  outputOptions : List String
  output : String
  deriving DecidableEq, Repr

/-- Observable effect of one call of `generateGif` (`src/index.js` lines
254-302): the resolved `conf`, the inner palette call, the gif-building
invocation when it starts (`none` when the palette step failed), the
paths handed to the deletion utility `del.sync`, and the settled value of
the returned promise. -/
structure GifCall where
  conf : Obj
  paletteCall : PaletteCall
  gifInvocation : Option GifInvocation
  deletions : List String
  result : Except String String
  deriving DecidableEq, Repr

/-- The default-options template `generateGif` builds afresh on every
call. -/
def gifDefaultOpts : Obj :=
  [("fps", .vNum (3/4)),
   ("scale", .vNum 180),
   ("speedMultiplier", .vNum 4),
   ("deletePalette", .vBool true)]

/-- `generateGif(opts)`: resolves `conf`, prepares the `-filter_complex`
output option and the output path `` `${this.thumbnailPath}/${conf.fileName
|| `video-${Date.now()}.gif`}` ``, then runs `this.generatePalette()` with
NO arguments; only on its success does `createGif` run the second engine
invocation, whose input options gain `-ss`/`-t` when `conf.offset` /
`conf.duration` are truthy and whose output options are prefixed
(`unshift`) with `-i <palettePath>`.  On the second run's `end`,
`del.sync([palettePath], {force: true})` is called exactly when
`conf.deletePalette === true` (strict equality), and the promise resolves
with the output path; each step's `error` rejects the promise with that
error. -/
def generateGif (g : Generator) (opts : Obj) (nowGif nowPalette : Nat)
    (paletteOutcome gifOutcome : EngineOutcome) : GifCall :=
  let conf := assignIn gifDefaultOpts opts
  let baseOutputOptions :=
    ["-filter_complex fps=" ++ jsToString (getProp conf "fps")
      ++ ",setpts=(1/" ++ jsToString (getProp conf "speedMultiplier")
      ++ ")*PTS,scale=" ++ jsToString (getProp conf "scale")
      ++ ":-1:flags=lanczos[x];[x][1:v]paletteuse"]
  let outputFileName :=
    if truthy (getProp conf "fileName") then jsToString (getProp conf "fileName")
    else "video-" ++ toString nowGif ++ ".gif"
  let output := jsToString g.thumbnailPath ++ "/" ++ outputFileName
  let pal := generatePalette g [] nowPalette paletteOutcome
  match pal.result with
  | .error e =>
    { conf, paletteCall := pal, gifInvocation := none, deletions := []
      result := .error e }
  | .ok palettePath =>
    let inputOptions :=
      (if truthy (getProp conf "offset") then
        ["-ss " ++ jsToString (getProp conf "offset")] else [])
      ++ (if truthy (getProp conf "duration") then
        ["-t " ++ jsToString (getProp conf "duration")] else [])
    let outputOptions := ("-i " ++ palettePath) :: baseOutputOptions
    match gifOutcome with
    | .failure e =>
      { conf, paletteCall := pal
        gifInvocation := some ⟨inputOptions, outputOptions, output⟩
        deletions := [], result := .error e }
    | .success =>
      { conf, paletteCall := pal
        gifInvocation := some ⟨inputOptions, outputOptions, output⟩
        deletions :=
          if getProp conf "deletePalette" = .vBool true then [palettePath] else []
        result := .ok output }

/-- Argument lists of the callback invocations a `*Cb` adapter performs,
given the settled value of the wrapped promise.  Every adapter is
`promise.then(result => callback(null, result)).catch(callback)`: on
success the callback receives `(null, result)`; on failure `.catch`
invokes the callback with the rejection error as its only argument. -/
def cbInvocations (r : Except String JVal) : List (List JVal) :=
  match r with
  | .ok v => [[.vNull, v]]
  | .error e => [[.vErr e]]

/-- `generateCb(opts, cb)` (`src/index.js` lines 159-165): the callback
invocations it performs. -/
def generateCb (g : Generator) (opts : Obj) (run : ScreenshotRun) :
    List (List JVal) :=
  cbInvocations ((generate g opts run).result.map (fun fns => .vArr fns))

/-- `generateOneByPercentCb(percent, opts, cb)` (`src/index.js` lines
88-94): the callback invocations it performs. -/
def generateOneByPercentCb (g : Generator) (percent : ℚ) (opts : Obj)
    (run : ScreenshotRun) : List (List JVal) :=
  cbInvocations (generateOneByPercent g percent opts run).result

/-- `generatePaletteCb(opts, cb)` (`src/index.js` lines 232-238): the
callback invocations it performs. -/
def generatePaletteCb (g : Generator) (opts : Obj) (now : Nat)
    (outcome : EngineOutcome) : List (List JVal) :=
  cbInvocations ((generatePalette g opts now outcome).result.map .vStr)

/-- `generateGifCb(opts, cb)` (`src/index.js` lines 317-323): the callback
invocations it performs. -/
def generateGifCb (g : Generator) (opts : Obj) (nowGif nowPalette : Nat)
    (paletteOutcome gifOutcome : EngineOutcome) : List (List JVal) :=
  cbInvocations
    ((generateGif g opts nowGif nowPalette paletteOutcome gifOutcome).result.map .vStr)

/-- Two consecutive calls of `generate` on the same instance: the
default-settings object literal is evaluated afresh inside each call, so
the `_.assignIn` mutation performed by the first call acts on the first
call's template only.  Returns both calls' resolved settings. -/
def twoGenerateCalls (g : Generator) (o1 o2 : Obj) : Obj × Obj :=
  let t1 := defaultGenerateSettings g
  let s1 := assignIn t1 o1
  let t2 := defaultGenerateSettings g
  let s2 := assignIn t2 o2
  (s1, s2)

/-- Two consecutive calls of `generatePalette`: both calls' resolved
`conf` objects (the default template is an object literal evaluated afresh
inside each call). -/
def twoPaletteCalls (o1 o2 : Obj) : Obj × Obj :=
  let t1 := paletteDefaultOpts
  let c1 := assignIn t1 o1
  let t2 := paletteDefaultOpts
  let c2 := assignIn t2 o2
  (c1, c2)

/-- Two consecutive calls of `generateGif`: both calls' resolved `conf`
objects (the default template is an object literal evaluated afresh inside
each call). -/
def twoGifCalls (o1 o2 : Obj) : Obj × Obj :=
  let t1 := gifDefaultOpts
  let c1 := assignIn t1 o1
  let t2 := gifDefaultOpts
  let c2 := assignIn t2 o2
  (c1, c2)

/-- A concrete generator used by the witness and counterexample theorems:
built by the constructor from a source path, an output directory, a
percent of 50 and the default temp directory. -/
def gEx : Generator :=
  mkGenerator ⟨.vStr "/videos/a.mp4", .vStr "/out", .vNum 50, .vUndefined, .vStr "/tmp"⟩

theorem getProp_setKey_self (o : Obj) (k : String) (v : JVal) :
    getProp (setKey o k v) k = v := by
  induction o with
  | nil => simp [setKey, getProp]
  | cons kv rest ih =>
    obtain ⟨j, w⟩ := kv
    by_cases h : j = k
    · simp [setKey, h, getProp]
    · simp [setKey, h, getProp, ih]

theorem getProp_setKey_ne (o : Obj) (j k : String) (v : JVal) (h : j ≠ k) :
    getProp (setKey o j v) k = getProp o k := by
  induction o with
  | nil => simp [setKey, getProp, h]
  | cons kv rest ih =>
    obtain ⟨i, w⟩ := kv
    by_cases hi : i = j
    · subst hi
      simp [setKey, getProp, h]
    · by_cases hik : i = k
      · subst hik
        simp [setKey, getProp, hi, Ne.symm h]
      · simp [setKey, getProp, hi, hik, ih]

theorem hasKey_iff_mem (o : Obj) (k : String) :
    hasKey o k = true ↔ k ∈ o.map Prod.fst := by
  simp [hasKey, List.any_eq_true, List.mem_map, beq_iff_eq]

theorem hasKey_eq_false_iff (o : Obj) (k : String) :
    hasKey o k = false ↔ k ∉ o.map Prod.fst := by
  rw [← hasKey_iff_mem o k]
  cases hasKey o k <;> simp

theorem map_fst_setKey (o : Obj) (k : String) (v : JVal) :
    (setKey o k v).map Prod.fst =
      if hasKey o k then o.map Prod.fst else o.map Prod.fst ++ [k] := by
  induction o with
  | nil => simp [setKey, hasKey]
  | cons kv rest ih =>
    obtain ⟨j, w⟩ := kv
    by_cases h : j = k
    · subst h; simp [setKey, hasKey]
    · have hj : (j == k) = false := by simp [h]
      have hhk : hasKey ((j, w) :: rest) k = hasKey rest k := by
        simp [hasKey, hj]
      simp only [setKey, if_neg h, List.map_cons, ih, hhk]
      by_cases hr : hasKey rest k = true
      · simp [hr]
      · simp [hr]

theorem hasKey_setKey_self (o : Obj) (k : String) (v : JVal) :
    hasKey (setKey o k v) k = true := by
  rw [hasKey_iff_mem, map_fst_setKey]
  split
  · rw [← hasKey_iff_mem]; assumption
  · rw [List.mem_append]; right; simp

theorem hasKey_setKey_of_hasKey (o : Obj) (j k : String) (v : JVal)
    (h : hasKey o k = true) :
    hasKey (setKey o j v) k = true := by
  rw [hasKey_iff_mem, map_fst_setKey]
  split
  · exact (hasKey_iff_mem o k).mp h
  · rw [List.mem_append]; left; exact (hasKey_iff_mem o k).mp h

theorem keysNodup_setKey (o : Obj) (k : String) (v : JVal)
    (h : keysNodup o) :
    keysNodup (setKey o k v) := by
  unfold keysNodup at *
  rw [map_fst_setKey]
  split
  · exact h
  · rename_i hk
    rw [List.nodup_append]
    refine ⟨h, List.nodup_singleton k, ?_⟩
    intro a ha hak
    simp at hak
    subst hak
    exact absurd ha ((hasKey_eq_false_iff o a).mp (by simpa using hk))

theorem getProp_assignIn_not_has (t s : Obj) (k : String)
    (h : hasKey s k = false) :
    getProp (assignIn t s) k = getProp t k := by
  induction s generalizing t with
  | nil => rfl
  | cons kv rest ih =>
    obtain ⟨j, v⟩ := kv
    have hj : j ≠ k := by
      intro hjk
      subst hjk
      simp [hasKey] at h
    have hr : hasKey rest k = false := by
      simp [hasKey] at h ⊢
      exact h.2
    show getProp (assignIn (setKey t j v) rest) k = getProp t k
    rw [ih (setKey t j v) hr, getProp_setKey_ne t j k v hj]

theorem getProp_assignIn (t s : Obj) (k : String) (h : keysNodup s) :
    getProp (assignIn t s) k =
      if hasKey s k then getProp s k else getProp t k := by
  induction s generalizing t with
  | nil => simp [assignIn, hasKey, getProp]
  | cons kv rest ih =>
    obtain ⟨j, v⟩ := kv
    unfold keysNodup at h
    rw [List.map_cons, List.nodup_cons] at h
    have hnd : keysNodup rest := h.2
    have hjmem : j ∉ rest.map Prod.fst := h.1
    show getProp (assignIn (setKey t j v) rest) k =
      if hasKey ((j, v) :: rest) k then getProp ((j, v) :: rest) k else getProp t k
    rw [ih _ hnd]
    by_cases hk : j = k
    · subst hk
      have hrk : hasKey rest j = false := (hasKey_eq_false_iff rest j).mpr hjmem
      have hok : hasKey ((j, v) :: rest) j = true := by simp [hasKey]
      simp [hrk, hok, getProp, getProp_setKey_self]
    · have hj : (j == k) = false := by simp [hk]
      have hskip : hasKey ((j, v) :: rest) k = hasKey rest k := by
        simp [hasKey, hj]
      rw [hskip]
      by_cases hrk : hasKey rest k = true
      · simp [hrk, getProp, hk]
      · have hrk' : hasKey rest k = false := by
          cases hhh : hasKey rest k
          · rfl
          · exact absurd hhh hrk
        simp [hrk', getProp, hk, getProp_setKey_ne t j k v hk]

/-- C1: for every percent value outside the closed interval [0,100],
`generateOneByPercent` fails with the invalid-argument error
"Percent must be a value from 0-100", the caller's options are left
untouched, and no ffmpeg instance is ever started (the list of engine
invocations is empty). -/
theorem generateOneByPercent_out_of_range (g : Generator) (p : ℚ) (opts : Obj)
    (run : ScreenshotRun) (h : p < 0 ∨ 100 < p) :
    generateOneByPercent g p opts run =
      { invocations := []
        optsAfter := opts
        result := .error "Percent must be a value from 0-100" } := by
  unfold generateOneByPercent
  rw [if_pos h]

/-- Witness for `generateOneByPercent_out_of_range` at percent 101. -/
theorem generateOneByPercent_out_of_range_witness :
    ((101 : ℚ) < 0 ∨ 100 < (101 : ℚ)) ∧
    generateOneByPercent gEx 101 [] ⟨[], .success⟩ =
      { invocations := []
        optsAfter := []
        result := .error "Percent must be a value from 0-100" } :=
  ⟨Or.inr (by norm_num),
   generateOneByPercent_out_of_range gEx 101 [] ⟨[], .success⟩ (Or.inr (by norm_num))⟩

/-- C2: for every percent in [0,100] (boundaries included),
`generateOneByPercent` starts exactly one engine invocation, its resolved
settings hold `count = 1` and the single timestamp string
`<percent>%`, and on success the promise resolves with the last element
of the sequence `generate` produced. -/
theorem generateOneByPercent_in_range (g : Generator) (p : ℚ) (opts : Obj)
    (fns : List String) (h0 : 0 ≤ p) (h1 : p ≤ 100) (hnd : keysNodup opts) :
    ∃ s : Obj,
      (generateOneByPercent g p opts ⟨[fns], .success⟩).invocations = [s] ∧
      getProp s "count" = .vNum 1 ∧
      getProp s "timestamps" = .vArr [jsNumToString p ++ "%"] ∧
      (generateOneByPercent g p opts ⟨[fns], .success⟩).result =
        .ok (((fns.getLast?).map JVal.vStr).getD .vUndefined) := by
  have hc : ¬(p < 0 ∨ 100 < p) := by
    rintro (hlt | hgt)
    · exact absurd hlt (not_lt.mpr h0)
    · exact absurd hgt (not_lt.mpr h1)
  have hnd2 : keysNodup (setKey (setKey opts "count" (.vNum 1)) "timestamps"
      (.vArr [jsNumToString p ++ "%"])) :=
    keysNodup_setKey _ _ _ (keysNodup_setKey _ _ _ hnd)
  refine ⟨assignIn (defaultGenerateSettings g)
    (setKey (setKey opts "count" (.vNum 1)) "timestamps"
      (.vArr [jsNumToString p ++ "%"])), ?_, ?_, ?_, ?_⟩
  · unfold generateOneByPercent
    rw [if_neg hc]
    rfl
  · have hk2 : hasKey (setKey (setKey opts "count" (.vNum 1)) "timestamps"
        (.vArr [jsNumToString p ++ "%"])) "count" = true :=
      hasKey_setKey_of_hasKey _ _ _ _ (hasKey_setKey_self opts "count" _)
    rw [getProp_assignIn _ _ _ hnd2]
    simp only [hk2, if_true]
    rw [getProp_setKey_ne _ _ _ _ (by decide), getProp_setKey_self]
  · have hk3 : hasKey (setKey (setKey opts "count" (.vNum 1)) "timestamps"
        (.vArr [jsNumToString p ++ "%"])) "timestamps" = true :=
      hasKey_setKey_self _ _ _
    rw [getProp_assignIn _ _ _ hnd2]
    simp only [hk3, if_true]
    rw [getProp_setKey_self]
  · unfold generateOneByPercent
    rw [if_neg hc]
    rfl

/-- Witness for `generateOneByPercent_in_range` at the boundary percent
100 with one produced filename. -/
theorem generateOneByPercent_in_range_witness :
    (0 : ℚ) ≤ 100 ∧ (100 : ℚ) ≤ 100 ∧ keysNodup [] ∧
    ∃ s : Obj,
      (generateOneByPercent gEx 100 [] ⟨[["a.png"]], .success⟩).invocations = [s] ∧
      getProp s "count" = .vNum 1 ∧
      getProp s "timestamps" = .vArr [jsNumToString 100 ++ "%"] ∧
      (generateOneByPercent gEx 100 [] ⟨[["a.png"]], .success⟩).result =
        .ok (((["a.png"].getLast?).map JVal.vStr).getD .vUndefined) :=
  ⟨by norm_num, by norm_num, by decide,
   generateOneByPercent_in_range gEx 100 [] ["a.png"]
     (by norm_num) (by norm_num) (by decide)⟩

/-- C3: `generate` called with no caller options resolves the settings to
the per-call default template — `count = 10`, `folder` the configured
output directory, `filename` the pattern `%b-thumbnail-%r-%000i` — and on
success returns exactly the filename list reported by the streaming
`filenames` notification, in the order received. -/
theorem generate_no_options (copts : ConstructorOpts) (fns : List String) :
    (generate (mkGenerator copts) [] ⟨[fns], .success⟩).settings =
      defaultGenerateSettings (mkGenerator copts) ∧
    getProp (generate (mkGenerator copts) [] ⟨[fns], .success⟩).settings "count" =
      .vNum 10 ∧
    getProp (generate (mkGenerator copts) [] ⟨[fns], .success⟩).settings "folder" =
      copts.thumbnailPath ∧
    getProp (generate (mkGenerator copts) [] ⟨[fns], .success⟩).settings "filename" =
      .vStr "%b-thumbnail-%r-%000i" ∧
    (generate (mkGenerator copts) [] ⟨[fns], .success⟩).result = .ok fns := by
  refine ⟨rfl, ?_, ?_, ?_, rfl⟩ <;>
    simp [generate, assignIn, defaultGenerateSettings, mkGenerator, getProp]

/-- C4: `generatePalette` without a `videoFilters` option passes exactly
the default filter chain as the single output option, always includes the
forced-overwrite flag `-y` among the input options, and on success
resolves with the path `<tmpDir>/palette-<now>.png` built from the current
timestamp. -/
theorem generatePalette_defaults (g : Generator) (opts : Obj) (now : Nat)
    (h : hasKey opts "videoFilters" = false) :
    (generatePalette g opts now .success).outputOptions =
      ["-vf fps=10,scale=320:-1:flags=lanczos,palettegen"] ∧
    "-y" ∈ (generatePalette g opts now .success).inputOptions ∧
    (generatePalette g opts now .success).output =
      jsToString g.tmpDir ++ "/palette-" ++ toString now ++ ".png" ∧
    (generatePalette g opts now .success).result =
      .ok (jsToString g.tmpDir ++ "/palette-" ++ toString now ++ ".png") := by
  have hvf : getProp (assignIn paletteDefaultOpts opts) "videoFilters" =
      .vStr "fps=10,scale=320:-1:flags=lanczos,palettegen" := by
    rw [getProp_assignIn_not_has _ _ _ h]
    rfl
  refine ⟨?_, ?_, rfl, rfl⟩
  · show ["-vf " ++ jsToString (getProp (assignIn paletteDefaultOpts opts) "videoFilters")] = _
    rw [hvf]
    rfl
  · show "-y" ∈ ["-y"] ++ _ ++ _
    simp

/-- Witness for `generatePalette_defaults` with an `offset` option (and no
`videoFilters`) at timestamp 7. -/
theorem generatePalette_defaults_witness :
    hasKey [("offset", JVal.vNum 3)] "videoFilters" = false ∧
    (generatePalette gEx [("offset", .vNum 3)] 7 .success).outputOptions =
      ["-vf fps=10,scale=320:-1:flags=lanczos,palettegen"] ∧
    "-y" ∈ (generatePalette gEx [("offset", .vNum 3)] 7 .success).inputOptions ∧
    (generatePalette gEx [("offset", .vNum 3)] 7 .success).output =
      jsToString gEx.tmpDir ++ "/palette-" ++ toString 7 ++ ".png" ∧
    (generatePalette gEx [("offset", .vNum 3)] 7 .success).result =
      .ok (jsToString gEx.tmpDir ++ "/palette-" ++ toString 7 ++ ".png") :=
  ⟨by decide, generatePalette_defaults gEx [("offset", .vNum 3)] 7 (by decide)⟩

/-- C9: for every in-range percent, `generateOneByPercent` mutates the
caller's `opts` object in place through `_.assignIn`: afterwards it holds
`count = 1` and the singleton timestamp array, whatever values the caller
had stored under those keys. -/
theorem generateOneByPercent_mutates_opts (g : Generator) (p : ℚ) (opts : Obj)
    (run : ScreenshotRun) (h0 : 0 ≤ p) (h1 : p ≤ 100) :
    getProp (generateOneByPercent g p opts run).optsAfter "count" = .vNum 1 ∧
    getProp (generateOneByPercent g p opts run).optsAfter "timestamps" =
      .vArr [jsNumToString p ++ "%"] := by
  have hc : ¬(p < 0 ∨ 100 < p) := by
    rintro (hlt | hgt)
    · exact absurd hlt (not_lt.mpr h0)
    · exact absurd hgt (not_lt.mpr h1)
  unfold generateOneByPercent
  rw [if_neg hc]
  refine ⟨?_, ?_⟩
  · show getProp (setKey (setKey opts "count" (.vNum 1)) "timestamps"
      (.vArr [jsNumToString p ++ "%"])) "count" = .vNum 1
    rw [getProp_setKey_ne _ _ _ _ (by decide), getProp_setKey_self]
  · show getProp (setKey (setKey opts "count" (.vNum 1)) "timestamps"
      (.vArr [jsNumToString p ++ "%"])) "timestamps" =
      .vArr [jsNumToString p ++ "%"]
    rw [getProp_setKey_self]

/-- Witness for `generateOneByPercent_mutates_opts` at percent 50 with a
caller `opts` that already stored `count = 5`: the call overwrites it. -/
theorem generateOneByPercent_mutates_opts_witness :
    (0 : ℚ) ≤ 50 ∧ (50 : ℚ) ≤ 100 ∧
    getProp (generateOneByPercent gEx 50 [("count", .vNum 5)]
      ⟨[], .success⟩).optsAfter "count" = .vNum 1 ∧
    getProp (generateOneByPercent gEx 50 [("count", .vNum 5)]
      ⟨[], .success⟩).optsAfter "timestamps" =
      .vArr [jsNumToString 50 ++ "%"] :=
  ⟨by norm_num, by norm_num,
   generateOneByPercent_mutates_opts gEx 50 [("count", .vNum 5)]
     ⟨[], .success⟩ (by norm_num) (by norm_num)⟩

/-- C10: the constructed generator's `percent` field always equals the
template string of `opts.percent` followed by a percent sign — including
the string `undefined%` when `opts.percent` is absent — because that
template string is never empty, so the `|| '90%'` fallback branch never
fires. -/
theorem mkGenerator_percent (copts : ConstructorOpts) :
    (mkGenerator copts).percent = jsToString copts.percent ++ "%" ∧
    (copts.percent = .vUndefined → (mkGenerator copts).percent = "undefined%") := by
  have hne : jsToString copts.percent ++ "%" ≠ "" := by
    intro h
    have hl := congrArg String.length h
    simp [String.length_append] at hl
    exact absurd hl.2 (by decide)
  have main : (mkGenerator copts).percent = jsToString copts.percent ++ "%" := by
    show (if jsToString copts.percent ++ "%" = "" then "90%"
      else jsToString copts.percent ++ "%") = _
    rw [if_neg hne]
  refine ⟨main, fun h => ?_⟩
  rw [main, h]
  rfl

/-- Witness for `mkGenerator_percent`: constructing with no `percent`
option stores the string `undefined%`. -/
theorem mkGenerator_percent_witness :
    (mkGenerator ⟨.vNull, .vNull, .vUndefined, .vNull, .vNull⟩).percent =
      "undefined%" :=
  (mkGenerator_percent ⟨.vNull, .vNull, .vUndefined, .vNull, .vNull⟩).2 rfl

/-- C6: whenever the palette step of `generateGif` fails, the whole
operation fails with exactly that error, the second (gif-building) engine
invocation never starts, and nothing is deleted. -/
theorem generateGif_palette_failure (g : Generator) (opts : Obj)
    (nowGif nowPalette : Nat) (gifOutcome : EngineOutcome) (e : String) :
    generateGif g opts nowGif nowPalette (.failure e) gifOutcome =
      { conf := assignIn gifDefaultOpts opts
        paletteCall := generatePalette g [] nowPalette (.failure e)
        gifInvocation := none
        deletions := []
        result := .error e } := rfl

/-- C8 (amended in no way, the claim holds): repeated calls of the same
operation with equal caller-supplied overrides resolve to equal settings:
each call evaluates its default-template object literal afresh, so the
in-place `_.assignIn` mutation of one call cannot leak into the next. -/
theorem merge_never_mutates_template (g : Generator) (o1 o2 : Obj)
    (h : o1 = o2) :
    (twoGenerateCalls g o1 o2).1 = (twoGenerateCalls g o1 o2).2 ∧
    (twoPaletteCalls o1 o2).1 = (twoPaletteCalls o1 o2).2 ∧
    (twoGifCalls o1 o2).1 = (twoGifCalls o1 o2).2 := by
  subst h
  exact ⟨rfl, rfl, rfl⟩

/-- Witness for `merge_never_mutates_template` with a `count` override. -/
theorem merge_never_mutates_template_witness :
    ([("count", JVal.vNum 3)] : Obj) = [("count", JVal.vNum 3)] ∧
    ((twoGenerateCalls gEx [("count", .vNum 3)] [("count", .vNum 3)]).1 =
      (twoGenerateCalls gEx [("count", .vNum 3)] [("count", .vNum 3)]).2 ∧
     (twoPaletteCalls [("count", .vNum 3)] [("count", .vNum 3)]).1 =
      (twoPaletteCalls [("count", .vNum 3)] [("count", .vNum 3)]).2 ∧
     (twoGifCalls [("count", .vNum 3)] [("count", .vNum 3)]).1 =
      (twoGifCalls [("count", .vNum 3)] [("count", .vNum 3)]).2) :=
  ⟨rfl, merge_never_mutates_template gEx _ _ rfl⟩

/-- Counterexample to C5 as stated: passing the truthy, non-false value
`deletePalette: 1` — while both engine steps succeed — leaves the deletion
list empty, because the code tests `conf.deletePalette === true` with
strict equality, not "not explicitly false". -/
theorem generateGif_nonfalse_no_deletion_cex :
    getProp (generateGif gEx [("deletePalette", .vNum 1)] 222 111
      .success .success).conf "deletePalette" = .vNum 1 ∧
    JVal.vNum 1 ≠ .vBool false ∧
    (generateGif gEx [("deletePalette", .vNum 1)] 222 111
      .success .success).result = .ok "/out/video-222.gif" ∧
    (generateGif gEx [("deletePalette", .vNum 1)] 222 111
      .success .success).deletions = [] :=
  ⟨rfl, by decide, rfl, rfl⟩

/-- C5 as amended: when both steps succeed, the deletion utility receives
the palette path exactly when the resolved `deletePalette` is strictly the
boolean `true` — so it runs when the option is absent (the default), and
never runs when `deletePalette: false` (or any other non-`true` value) is
passed. -/
theorem generateGif_deletion_strict_true (g : Generator) (opts : Obj)
    (nowGif nowPalette : Nat) :
    ((generateGif g opts nowGif nowPalette .success .success).deletions =
      if getProp (assignIn gifDefaultOpts opts) "deletePalette" = .vBool true
      then [(generateGif g opts nowGif nowPalette
        .success .success).paletteCall.output]
      else []) ∧
    (hasKey opts "deletePalette" = false →
      (generateGif g opts nowGif nowPalette .success .success).deletions =
        [(generateGif g opts nowGif nowPalette
          .success .success).paletteCall.output]) ∧
    (keysNodup opts → hasKey opts "deletePalette" = true →
      getProp opts "deletePalette" = .vBool false →
      (generateGif g opts nowGif nowPalette .success .success).deletions = []) := by
  have base : (generateGif g opts nowGif nowPalette .success .success).deletions =
      if getProp (assignIn gifDefaultOpts opts) "deletePalette" = .vBool true
      then [(generateGif g opts nowGif nowPalette
        .success .success).paletteCall.output]
      else [] := rfl
  refine ⟨base, ?_, ?_⟩
  · intro h
    rw [base, getProp_assignIn_not_has _ _ _ h]
    simp [gifDefaultOpts, getProp]
  · intro hnd hk hv
    rw [base, getProp_assignIn _ _ _ hnd]
    simp [hk, hv]

/-- Witness for `generateGif_deletion_strict_true` with
`deletePalette: false`: no deletion happens. -/
theorem generateGif_deletion_strict_true_witness :
    keysNodup [("deletePalette", JVal.vBool false)] ∧
    hasKey [("deletePalette", JVal.vBool false)] "deletePalette" = true ∧
    getProp [("deletePalette", JVal.vBool false)] "deletePalette" =
      .vBool false ∧
    (generateGif gEx [("deletePalette", .vBool false)] 222 111
      .success .success).deletions = [] :=
  ⟨by decide, by decide, by decide,
   (generateGif_deletion_strict_true gEx [("deletePalette", .vBool false)]
     222 111).2.2 (by decide) (by decide) (by decide)⟩

/-- Counterexample to C7 as stated: on failure the callback-style adapter
invokes the completion function with the error as its only argument
(`.catch(callback)` passes nothing else), not with the pair
`(error, null)` the claim describes. -/
theorem cb_failure_single_argument_cex :
    generateCb gEx [] ⟨[], .failure "boom"⟩ = [[.vErr "boom"]] ∧
    generateCb gEx [] ⟨[], .failure "boom"⟩ ≠ [[.vErr "boom", .vNull]] :=
  ⟨rfl, by decide⟩

/-- Helper: a `*Cb` adapter performs exactly one callback invocation. -/
theorem cbInvocations_length (r : Except String JVal) :
    (cbInvocations r).length = 1 := by
  cases r <;> rfl

/-- C7 as amended: every callback-style adapter invokes the completion
function exactly once per call, with `(null, result)` when the wrapped
operation succeeds and with the error as the sole argument when it fails. -/
theorem cb_adapters_invoke_once (g : Generator) (opts popts gopts : Obj)
    (p : ℚ) (run prun : ScreenshotRun) (now nowGif nowPalette : Nat)
    (oc po go : EngineOutcome) :
    (generateCb g opts run).length = 1 ∧
    (generateOneByPercentCb g p popts prun).length = 1 ∧
    (generatePaletteCb g opts now oc).length = 1 ∧
    (generateGifCb g gopts nowGif nowPalette po go).length = 1 ∧
    (∀ fns, (generate g opts run).result = .ok fns →
      generateCb g opts run = [[.vNull, .vArr fns]]) ∧
    (∀ e, (generate g opts run).result = .error e →
      generateCb g opts run = [[.vErr e]]) ∧
    (∀ v, (generateOneByPercent g p popts prun).result = .ok v →
      generateOneByPercentCb g p popts prun = [[.vNull, v]]) ∧
    (∀ e, (generateOneByPercent g p popts prun).result = .error e →
      generateOneByPercentCb g p popts prun = [[.vErr e]]) ∧
    (∀ s, (generatePalette g opts now oc).result = .ok s →
      generatePaletteCb g opts now oc = [[.vNull, .vStr s]]) ∧
    (∀ e, (generatePalette g opts now oc).result = .error e →
      generatePaletteCb g opts now oc = [[.vErr e]]) ∧
    (∀ s, (generateGif g gopts nowGif nowPalette po go).result = .ok s →
      generateGifCb g gopts nowGif nowPalette po go = [[.vNull, .vStr s]]) ∧
    (∀ e, (generateGif g gopts nowGif nowPalette po go).result = .error e →
      generateGifCb g gopts nowGif nowPalette po go = [[.vErr e]]) := by
  refine ⟨cbInvocations_length _, cbInvocations_length _, cbInvocations_length _,
    cbInvocations_length _, ?_, ?_, ?_, ?_, ?_, ?_, ?_, ?_⟩
  · intro fns h
    unfold generateCb
    rw [h]
    rfl
  · intro e h
    unfold generateCb
    rw [h]
    rfl
  · intro v h
    unfold generateOneByPercentCb
    rw [h]
    rfl
  · intro e h
    unfold generateOneByPercentCb
    rw [h]
    rfl
  · intro s h
    unfold generatePaletteCb
    rw [h]
    rfl
  · intro e h
    unfold generatePaletteCb
    rw [h]
    rfl
  · intro s h
    unfold generateGifCb
    rw [h]
    rfl
  · intro e h
    unfold generateGifCb
    rw [h]
    rfl

/-- Witness for `cb_adapters_invoke_once`: a successful `generate` run
makes `generateCb` call back once with `(null, [list of filenames])`. -/
theorem cb_adapters_invoke_once_witness :
    (generate gEx [] ⟨[["a.png"]], .success⟩).result = .ok ["a.png"] ∧
    generateCb gEx [] ⟨[["a.png"]], .success⟩ = [[.vNull, .vArr ["a.png"]]] :=
  ⟨rfl,
   (cb_adapters_invoke_once gEx [] [] [] 50 ⟨[["a.png"]], .success⟩
     ⟨[], .success⟩ 0 0 0 .success .success .success).2.2.2.2.1 ["a.png"] rfl⟩
